import Mathlib

/-!
Shallow embedding of the flasktodoapp repository (src/main.py,
src/voice_bot.py) and proofs of the specified properties.

The to-do table is modelled as a list of rows in storage (insertion) order.
SQLAlchemy query results and mutations are translated operation by operation;
an operation that would raise an unhandled Python exception is modelled as
returning none.  Remote vendor calls (OpenAI chat completions, AssemblyAI
transcription) are modelled as explicit parameters: a call either returns a
response payload (Except.ok) or raises (Except.error).  Python strings are
viewed as character lists where their primitives (strip, split, lower, upper,
substring tests) are needed, so that every definition is executable by kernel
reduction.
-/

namespace FlaskTodo

/-- Row of the to-do table (src/main.py lines 32-35): integer primary key,
free-text title, boolean completion flag. -/
structure Todo where
  id : Nat
  title : String
  complete : Bool
deriving Repr, DecidableEq

/-- Python statement at src/main.py line 155: the completion flag of the row
is replaced by its negation. -/
def Todo.toggle (t : Todo) : Todo :=
  { t with complete := !t.complete }

/-- Route index (src/main.py lines 147-150): the query for all rows, in
storage order. -/
def index (db : List Todo) : List Todo := db

/-- Query filter_by(id=id).first(): the first row with the given id, or
none. -/
def firstById (i : Nat) (db : List Todo) : Option Todo :=
  db.find? (fun t => t.id == i)

/-- In-place update of the row returned by first(): the first row whose id
matches is replaced by its toggled version. -/
def toggleFirstById (i : Nat) : List Todo → List Todo
  | [] => []
  | t :: ts => if t.id == i then Todo.toggle t :: ts else t :: toggleFirstById i ts

/-- Session delete of the row returned by first(): the first row whose id
matches is removed. -/
def removeFirstById (i : Nat) : List Todo → List Todo
  | [] => []
  | t :: ts => if t.id == i then ts else t :: removeFirstById i ts

/-- Route completeTodo (src/main.py lines 152-157).  When first() returns
None, the attribute access on None raises before any write; this unhandled
fault is modelled as none. -/
def completeTodo (i : Nat) (db : List Todo) : Option (List Todo) :=
  match firstById i db with
  | none => none
  | some _ => some (toggleFirstById i db)

/-- Route deleteTodo (src/main.py lines 167-172).  Deleting None raises
before any write; modelled as none. -/
def deleteTodo (i : Nat) (db : List Todo) : Option (List Todo) :=
  match firstById i db with
  | none => none
  | some _ => some (removeFirstById i db)

/-- SQLite rowid assignment for the integer primary key: one more than the
largest id in the table. -/
def nextId (db : List Todo) : Nat :=
  (db.map Todo.id).foldr max 0 + 1

/-- Route addTodo (src/main.py lines 159-165): inserts a row with the posted
title and completion flag False; any title is accepted. -/
def addTodo (title : String) (db : List Todo) : List Todo :=
  db ++ [⟨nextId db, title, false⟩]

/-- A stored question/answer pair (the dicts built by load_qa_pairs). -/
structure QA where
  question : String
  answer : String
deriving Repr, DecidableEq

/-! Python string primitives, modelled over character lists so that every
operation is structurally recursive. -/

/-- The needle occurs at the head of the haystack. -/
def leads : List Char → List Char → Bool
  | [], _ => true
  | _ :: _, [] => false
  | a :: as, b :: bs => a == b && leads as bs

/-- The needle occurs somewhere in the haystack (the Python membership test
on strings). -/
def occursIn (needle : List Char) : List Char → Bool
  | [] => leads needle []
  | hay@(_ :: rest) => leads needle hay || occursIn needle rest

/-- Python str.lower(). -/
def pyLower (s : List Char) : List Char :=
  s.map Char.toLower

/-- Python str.upper(). -/
def pyUpper (s : List Char) : List Char :=
  s.map Char.toUpper

/-- Python str.strip(): drop leading and trailing whitespace. -/
def pyStrip (s : List Char) : List Char :=
  ((s.dropWhile Char.isWhitespace).reverse.dropWhile Char.isWhitespace).reverse

/-- Python str.strip() on a String. -/
def pyStripStr (s : String) : String :=
  ⟨pyStrip s.toList⟩

/-- Worker for str.split() with no separator; the accumulator holds the
reversed token being read. -/
def wsSplitAux : List Char → List Char → List (List Char)
  | [], acc => if acc.isEmpty then [] else [acc.reverse]
  | c :: cs, acc =>
    if c.isWhitespace then
      if acc.isEmpty then wsSplitAux cs [] else acc.reverse :: wsSplitAux cs []
    else wsSplitAux cs (c :: acc)

/-- Python str.split() with no separator: split on whitespace runs, dropping
empty tokens. -/
def pySplit (s : List Char) : List (List Char) :=
  wsSplitAux s []

/-- Worker for str.split(sep) with a one-character separator; empty fields
are kept. -/
def sepSplitAux (sep : Char) : List Char → List Char → List (List Char)
  | [], acc => [acc.reverse]
  | c :: cs, acc =>
    if c == sep then acc.reverse :: sepSplitAux sep cs []
    else sepSplitAux sep cs (c :: acc)

/-- Python str.split(sep) for a one-character separator. -/
def pySplitOn (sep : Char) (s : List Char) : List (List Char) :=
  sepSplitAux sep s []

/-- The per-pair test of the matching loop in find_answer (src/main.py
line 116): some whitespace-separated token of the lowercased question, of
length strictly greater than 3, occurs as a substring of the lowercased
stored question. -/
def keywordHit (question : String) (qa : QA) : Bool :=
  (pySplit (pyLower question.toList)).any
    (fun word => decide (3 < word.length) && occursIn word (pyLower qa.question.toList))

/-! Function load_qa_pairs (src/main.py lines 38-67). -/

/-- Python truthiness of current_q / current_a: not None and not the empty
string. -/
def pyTruthy : Option String → Bool
  | none => false
  | some s => !(s == "")

/-- The guarded append: when both current_q and current_a are truthy, the
pair is appended to the accumulated list. -/
def pushPair (acc : List QA) (cq ca : Option String) : List QA :=
  if pyTruthy cq && pyTruthy ca then
    acc ++ [⟨cq.getD "", ca.getD ""⟩]
  else acc

/-- Parser state of the line loop: accumulated pairs, current_q,
current_a. -/
structure ParseState where
  pairs : List QA
  currentQ : Option String
  currentA : Option String

/-- One iteration of the line loop, on the character-list view of a line:
strip the line; on a line starting with Q-colon, flush the pending pair and
start a new question; on a line starting with A-colon, record the stripped
remainder as the answer; other lines are ignored. -/
def qaStep (st : ParseState) (line : List Char) : ParseState :=
  let l := pyStrip line
  if leads ['Q', ':'] l then
    { pairs := pushPair st.pairs st.currentQ st.currentA
      currentQ := some ⟨pyStrip (l.drop 2)⟩
      currentA := none }
  else if leads ['A', ':'] l then
    { st with currentA := some ⟨pyStrip (l.drop 2)⟩ }
  else st

/-- Function load_qa_pairs applied to the contents of the knowledge-base
file: strip the content, split it on newlines, run the line loop, then the
trailing guarded append of the last pending pair. -/
def load_qa_pairs (content : String) : List QA :=
  let lines := pySplitOn '\n' (pyStrip content.toList)
  let final := lines.foldl qaStep ⟨[], none, none⟩
  pushPair final.pairs final.currentQ final.currentA

/-! Function check_relevancy (src/main.py lines 71-106). -/

/-- The classification prompt built from the question (src/main.py
lines 74-90). -/
def relevancyPrompt (question : String) : String :=
  "You are a classifier that determines if a user\x27s question is related to a to-do list application.\n"
    ++ "\n"
    ++ "A question is related to the to-do list app if it asks about:\n"
    ++ "- How to use the app features (adding tasks, completing tasks, deleting tasks, etc.)\n"
    ++ "- App functionality, buttons, inputs, or interface elements\n"
    ++ "- Task management, task status, or task operations\n"
    ++ "- App behavior, settings, or features\n"
    ++ "\n"
    ++ "A question is NOT related if it asks about:\n"
    ++ "- General knowledge, facts, or information outside the app\n"
    ++ "- Other applications or software\n"
    ++ "- Personal advice, opinions, or unrelated topics\n"
    ++ "- Anything not directly about using the to-do list application\n"
    ++ "\n"
    ++ "User\x27s question: \"" ++ question ++ "\"\n"
    ++ "\n"
    ++ "Respond with only \"YES\" if the question is related to the to-do list app, or \"NO\" if it is not related. Do not provide any other text."

/-- Function check_relevancy.  The single chat-completion call is the
parameter, applied to the prompt: Except.ok is a reply with the given message
content, Except.error is a raised exception.  On a reply the code returns
whether the stripped, uppercased content equals YES; the handler-wide except
branch returns True. -/
def check_relevancy (call : String → Except String String) (question : String) : Bool :=
  match call (relevancyPrompt question) with
  | .ok content => pyUpper (pyStrip content.toList) == "YES".toList
  | .error _ => true

/-! Function find_answer (src/main.py lines 108-144). -/

/-- The fixed apology returned when the fallback completion call raises
(src/main.py line 144). -/
def apologyMessage : String :=
  "I apologize, but I couldn\x27t find an answer to your question."

/-- The newline-joined rendering of the whole corpus used as fallback
context (src/main.py line 121). -/
def qaContext (pairs : List QA) : String :=
  String.intercalate "\n"
    (pairs.map (fun qa => "Q: " ++ qa.question ++ "\nA: " ++ qa.answer))

/-- The fallback completion prompt, seeded with the entire Q&A corpus
(src/main.py lines 122-129). -/
def fallbackPrompt (pairs : List QA) (question : String) : String :=
  "Based on the following Q&A pairs about a to-do list application, answer the user\x27s question.\n"
    ++ "\n"
    ++ "Q&A Pairs:\n"
    ++ qaContext pairs
    ++ "\n"
    ++ "\n"
    ++ "User\x27s question: " ++ question
    ++ "\n"
    ++ "\n"
    ++ "Provide a concise answer based on the Q&A pairs above. If the question is not directly covered, provide the closest relevant answer."

/-- Function find_answer: first the keyword-matching loop over the stored
pairs (the first hit returns the answer of that pair), otherwise the single
fallback completion call on the fallback prompt; a reply returns its stripped
content, a raised exception returns the apology. -/
def find_answer (pairs : List QA) (call : String → Except String String)
    (question : String) : String :=
  match pairs.find? (keywordHit question) with
  | some qa => qa.answer
  | none =>
    match call (fallbackPrompt pairs question) with
    | .ok content => pyStripStr content
    | .error _ => apologyMessage

/-! Route get_response (src/main.py lines 210-230). -/

/-- An HTTP reply: response body and status code. -/
structure HttpReply where
  body : String
  code : Nat
deriving Repr, DecidableEq

/-- The fixed redirection message for questions rejected by the relevancy
gate (src/main.py line 222). -/
def redirectMessage : String :=
  "I\x27m a Q&A assistant designed specifically to help with questions about the to-do list application. I can only answer questions related to how to use the app, such as adding tasks, completing tasks, deleting tasks, and other app features. Please ask me something about the to-do list app!"

/-- Route get_response: strips the posted question, rejects an empty one with
status 400, asks the relevancy gate, and either returns the fixed redirection
message or the answer-lookup result.  The parameters stand for
check_relevancy and find_answer applied to the stripped question. -/
def get_response (relevancy : String → Bool) (lookup : String → String)
    (question : String) : HttpReply :=
  let q := pyStripStr question
  if q == "" then ⟨"No question provided", 400⟩
  else if !(relevancy q) then ⟨redirectMessage, 200⟩
  else ⟨lookup q, 200⟩

/-! Route transcribe (src/main.py lines 175-208). -/

/-- AssemblyAI transcript status, as tested on src/main.py line 202. -/
inductive TranscriptStatus where
  | completed
  | error
deriving Repr, DecidableEq

/-- A returned transcript: status and text. -/
structure Transcript where
  status : TranscriptStatus
  text : String
deriving Repr, DecidableEq

/-- The fixed temporary path (src/main.py lines 185-189): temp_audio followed
by the lowercased final dot-component of the uploaded filename, defaulting to
webm when the filename has no dot. -/
def tempPath (filename : String) : String :=
  let ext := if occursIn ['.'] filename.toList
    then pyLower ((pySplitOn '.' filename.toList).getLast!)
    else "webm".toList
  ⟨"temp_audio.".toList ++ ext⟩

/-- Result of the transcribe handler: the HTTP reply, and whether the
temporary file still exists once the handler has returned. -/
structure TranscribeOutcome where
  reply : HttpReply
  tempFileExists : Bool
deriving Repr, DecidableEq

/-- The transcribe route.  The first parameter is the membership test of the
audio key in the uploaded files; the second is the vendor transcription call
on the saved temporary file, either a transcript or a raised exception.
After the save call the temporary file exists; the cleanup on src/main.py
lines 199-200 runs only when the vendor call returns, because the
handler-wide except branch (lines 206-208) returns the error reply without
removing the file. -/
def transcribe (hasAudio : Bool) (call : Except String Transcript) :
    TranscribeOutcome :=
  if !hasAudio then
    ⟨⟨"No audio file provided", 400⟩, false⟩
  else
    match call with
    | .error e => ⟨⟨e, 500⟩, true⟩
    | .ok t =>
      match t.status with
      | .error => ⟨⟨"Transcription failed", 500⟩, false⟩
      | .completed => ⟨⟨t.text, 200⟩, false⟩

/-! ### Helper lemmas -/

theorem firstById_eq_none (i : Nat) (db : List Todo)
    (h : ∀ t ∈ db, t.id ≠ i) : firstById i db = none := by
  apply List.find?_eq_none.mpr
  intro t ht
  simpa using h t ht

theorem firstById_isSome_of_mem (i : Nat) (db : List Todo)
    (h : ∃ t ∈ db, t.id = i) : (firstById i db).isSome := by
  obtain ⟨t, ht, hid⟩ := h
  rw [firstById]
  rcases hfind : db.find? (fun t => t.id == i) with _ | u
  · have := List.find?_eq_none.mp hfind t ht
    simp [hid] at this
  · simp [hfind]

theorem toggle_toggle (t : Todo) : t.toggle.toggle = t := by
  simp [Todo.toggle]

theorem toggleFirstById_involutive (i : Nat) (db : List Todo) :
    toggleFirstById i (toggleFirstById i db) = db := by
  induction db with
  | nil => rfl
  | cons t ts ih =>
    by_cases h : t.id = i
    · rw [toggleFirstById, if_pos (by simpa using h)]
      rw [toggleFirstById, if_pos (by simp [Todo.toggle, h])]
      rw [toggle_toggle]
    · simp [toggleFirstById, h, ih]

theorem firstById_toggleFirstById (i : Nat) (db : List Todo)
    (h : (firstById i db).isSome) :
    (firstById i (toggleFirstById i db)).isSome := by
  induction db with
  | nil => simp [firstById] at h
  | cons t ts ih =>
    by_cases hid : t.id = i
    · simp [toggleFirstById, hid, firstById, List.find?, Todo.toggle]
    · rw [toggleFirstById, if_neg (by simpa using hid)]
      rw [firstById, List.find?] at h ⊢
      rw [show (t.id == i) = false by simpa using hid] at h ⊢
      exact ih h

theorem mem_le_foldr_max (x : Nat) (l : List Nat) (h : x ∈ l) :
    x ≤ l.foldr max 0 := by
  induction l with
  | nil => simp at h
  | cons a as ih =>
    rcases List.mem_cons.mp h with h1 | h2
    · subst h1
      exact le_max_left _ _
    · exact le_trans (ih h2) (le_max_right _ _)

theorem removeFirstById_eq_filter (i : Nat) (db : List Todo)
    (h : (db.map Todo.id).Nodup) :
    removeFirstById i db = db.filter (fun t => !(t.id == i)) := by
  induction db with
  | nil => rfl
  | cons t ts ih =>
    rw [List.map_cons, List.nodup_cons] at h
    obtain ⟨hni, hnd⟩ := h
    by_cases hid : t.id = i
    · rw [removeFirstById, if_pos (by simpa using hid)]
      rw [List.filter_cons_of_neg (by simpa using hid)]
      symm
      apply List.filter_eq_self.mpr
      intro u hu
      have : u.id ≠ t.id := by
        intro hEq
        exact hni (hEq ▸ List.mem_map_of_mem Todo.id hu)
      simpa [hid] using fun hEq => this (by rw [hEq, hid])
    · rw [removeFirstById, if_neg (by simpa using hid)]
      rw [List.filter_cons_of_pos (by simpa using hid)]
      rw [ih hnd]

theorem pushPair_wf (acc : List QA) (cq ca : Option String)
    (h : ∀ p ∈ acc, p.question ≠ "" ∧ p.answer ≠ "") :
    ∀ p ∈ pushPair acc cq ca, p.question ≠ "" ∧ p.answer ≠ "" := by
  intro p hp
  rw [pushPair] at hp
  by_cases hc : (pyTruthy cq && pyTruthy ca) = true
  · rw [if_pos hc] at hp
    rcases List.mem_append.mp hp with h1 | h2
    · exact h p h1
    · have hp' : p = ⟨cq.getD "", ca.getD ""⟩ := by simpa using h2
      subst hp'
      obtain ⟨hq, ha⟩ : pyTruthy cq = true ∧ pyTruthy ca = true := by simpa using hc
      constructor
      · cases cq with
        | none => simp [pyTruthy] at hq
        | some q => simpa [pyTruthy] using hq
      · cases ca with
        | none => simp [pyTruthy] at ha
        | some a => simpa [pyTruthy] using ha
  · rw [if_neg hc] at hp
    exact h p hp

theorem qaStep_wf (st : ParseState) (line : List Char)
    (h : ∀ p ∈ st.pairs, p.question ≠ "" ∧ p.answer ≠ "") :
    ∀ p ∈ (qaStep st line).pairs, p.question ≠ "" ∧ p.answer ≠ "" := by
  rw [qaStep]
  by_cases h1 : leads ['Q', ':'] (pyStrip line) = true
  · simpa [h1] using pushPair_wf st.pairs st.currentQ st.currentA h
  · by_cases h2 : leads ['A', ':'] (pyStrip line) = true
    · simpa [h1, h2] using h
    · simpa [h1, h2] using h

theorem foldl_qaStep_wf (lines : List (List Char)) (st : ParseState)
    (h : ∀ p ∈ st.pairs, p.question ≠ "" ∧ p.answer ≠ "") :
    ∀ p ∈ (lines.foldl qaStep st).pairs, p.question ≠ "" ∧ p.answer ≠ "" := by
  induction lines generalizing st with
  | nil => simpa using h
  | cons l ls ih =>
    rw [List.foldl_cons]
    exact ih (qaStep st l) (qaStep_wf st l h)

/-! ### Claim theorems -/

/-- C1: find_answer matches the whitespace tokens of the lowercased question
that are longer than 3 characters as substrings of the lowercased stored
questions; when the first matching pair is qa, some such token occurs in the
question of qa, and the result is the answer of qa for every possible
fallback call, i.e. without invoking the model-call fallback path. -/
theorem find_answer_first_match (pairs : List QA) (question : String) (qa : QA)
    (h : pairs.find? (keywordHit question) = some qa) :
    (∃ word ∈ pySplit (pyLower question.toList),
        3 < word.length ∧ occursIn word (pyLower qa.question.toList) = true) ∧
    ∀ call : String → Except String String,
      find_answer pairs call question = qa.answer := by
  constructor
  · have hk : keywordHit question qa = true := List.find?_some h
    rw [keywordHit, List.any_eq_true] at hk
    obtain ⟨w, hw, hcond⟩ := hk
    have hsplit : 3 < w.length ∧ occursIn w (pyLower qa.question.toList) = true := by
      simpa using hcond
    exact ⟨w, hw, hsplit.1, hsplit.2⟩
  · intro call
    simp [find_answer, h]

/-- C1 witness: a concrete corpus and question where the keyword loop hits,
with a fallback call that would raise. -/
theorem find_answer_first_match_witness :
    find_answer [⟨"tasks", "answer one"⟩] (fun _ => Except.error "down") "task"
      = "answer one" :=
  (find_answer_first_match [⟨"tasks", "answer one"⟩] "task" ⟨"tasks", "answer one"⟩
    (by decide)).2 (fun _ => Except.error "down")

/-- C2 counterexample: when the vendor transcription call raises, the handler
returns with the temporary file still existing, refuting the claim that the
temporary file is deleted on every path. -/
theorem transcribe_temp_remains_on_raise :
    (transcribe true (Except.error "vendor call raised")).tempFileExists = true := rfl

/-- C2 amended: the transcribe handler deletes the temporary file before
returning whenever the vendor transcription call returns, both on success and
on a failed transcript status; but when the call raises an exception, the
handler returns the error reply without deleting the temporary file. -/
theorem transcribe_cleanup_on_return :
    (∀ t : Transcript, (transcribe true (Except.ok t)).tempFileExists = false) ∧
    (∀ e : String, (transcribe true (Except.error e)).tempFileExists = true) := by
  constructor
  · intro t
    rcases t with ⟨s, txt⟩
    cases s <;> rfl
  · intro e
    rfl

/-- C3: with an identifier not carried by any stored row, both the
toggle-completion and the delete route hit the unhandled fault (modelled as
none) before any write, so no stored item is modified. -/
theorem missing_id_mutations (i : Nat) (db : List Todo)
    (h : ∀ t ∈ db, t.id ≠ i) :
    completeTodo i db = none ∧ deleteTodo i db = none := by
  have hf := firstById_eq_none i db h
  constructor
  · rw [completeTodo, hf]
  · rw [deleteTodo, hf]

/-- C3 witness: identifier 2 against a table holding only identifier 1. -/
theorem missing_id_mutations_witness :
    completeTodo 2 [⟨1, "a", false⟩] = none ∧ deleteTodo 2 [⟨1, "a", false⟩] = none :=
  missing_id_mutations 2 [⟨1, "a", false⟩] (by decide)

/-- C4: toggling completion twice with the identifier of a stored item
returns the table to exactly its original state: flag, title and identifier
of that item and all other items are as before the first toggle. -/
theorem completeTodo_twice (i : Nat) (db : List Todo)
    (h : ∃ t ∈ db, t.id = i) :
    (completeTodo i db).bind (completeTodo i) = some db := by
  have h1 : (firstById i db).isSome := firstById_isSome_of_mem i db h
  obtain ⟨u, hu⟩ := Option.isSome_iff_exists.mp h1
  have e1 : completeTodo i db = some (toggleFirstById i db) := by
    rw [completeTodo, hu]
  have h2 : (firstById i (toggleFirstById i db)).isSome :=
    firstById_toggleFirstById i db h1
  obtain ⟨v, hv⟩ := Option.isSome_iff_exists.mp h2
  rw [e1]
  show completeTodo i (toggleFirstById i db) = some db
  rw [completeTodo, hv, toggleFirstById_involutive]

/-- C4 witness: a one-row table toggled twice. -/
theorem completeTodo_twice_witness :
    (completeTodo 1 [⟨1, "buy milk", false⟩]).bind (completeTodo 1)
      = some [⟨1, "buy milk", false⟩] :=
  completeTodo_twice 1 [⟨1, "buy milk", false⟩] (by decide)

/-- C5: check_relevancy turns the reply of its single classification call
into the YES test on the stripped, uppercased content, and returns true
(fail-open) whenever the call raises. -/
theorem check_relevancy_spec (question : String)
    (call : String → Except String String) :
    (∀ e, call (relevancyPrompt question) = Except.error e →
        check_relevancy call question = true) ∧
    (∀ s, call (relevancyPrompt question) = Except.ok s →
        check_relevancy call question = (pyUpper (pyStrip s.toList) == "YES".toList)) := by
  constructor <;> intro x hx <;> simp [check_relevancy, hx]

/-- C5 witness: a raising classification call is treated as relevant. -/
theorem check_relevancy_spec_witness :
    check_relevancy (fun _ => Except.error "down") "anything" = true :=
  (check_relevancy_spec "anything" (fun _ => Except.error "down")).1 "down" rfl

/-- C6: when no keyword of the question matches any stored question,
find_answer takes the single fallback completion call, seeded with the entire
corpus through fallbackPrompt; a reply returns its stripped content and a
raised exception returns the fixed apology string. -/
theorem find_answer_fallback (pairs : List QA) (question : String)
    (call : String → Except String String)
    (h : pairs.find? (keywordHit question) = none) :
    (∀ s, call (fallbackPrompt pairs question) = Except.ok s →
        find_answer pairs call question = pyStripStr s) ∧
    (∀ e, call (fallbackPrompt pairs question) = Except.error e →
        find_answer pairs call question = apologyMessage) := by
  constructor <;> intro x hx <;> simp [find_answer, h, hx]

/-- C6 witness: a question with no token longer than 3 characters and a
raising fallback call yield the apology. -/
theorem find_answer_fallback_witness :
    find_answer [⟨"tasks", "answer one"⟩] (fun _ => Except.error "down") "ok?"
      = apologyMessage :=
  (find_answer_fallback [⟨"tasks", "answer one"⟩] "ok?" (fun _ => Except.error "down")
    (by decide)).2 "down" rfl

/-- C7: for every title, including the empty one, adding creates an item with
that title and completion flag false, the subsequent listing is the previous
listing extended with exactly that item, and its identifier is fresh. -/
theorem addTodo_spec (title : String) (db : List Todo) :
    index (addTodo title db) = index db ++ [⟨nextId db, title, false⟩] ∧
    Todo.mk (nextId db) title false ∈ index (addTodo title db) ∧
    (Todo.mk (nextId db) title false).complete = false ∧
    ∀ t ∈ db, t.id ≠ nextId db := by
  refine ⟨rfl, ?_, rfl, ?_⟩
  · simp [index, addTodo]
  · intro t ht hEq
    have hle : t.id ≤ (db.map Todo.id).foldr max 0 :=
      mem_le_foldr_max t.id _ (List.mem_map_of_mem Todo.id ht)
    rw [hEq, nextId] at hle
    omega

/-- C8: deleting the identifier of a stored item (identifiers unique, as the
primary key guarantees) removes exactly that item: the subsequent listing is
the previous one with it filtered out, in storage order, and no remaining row
carries the identifier. -/
theorem deleteTodo_spec (i : Nat) (db : List Todo)
    (h1 : (db.map Todo.id).Nodup) (h2 : ∃ t ∈ db, t.id = i) :
    deleteTodo i db = some ((index db).filter (fun t => !(t.id == i))) ∧
    ∀ t ∈ (index db).filter (fun t => !(t.id == i)), t.id ≠ i := by
  constructor
  · have hs := firstById_isSome_of_mem i db h2
    obtain ⟨u, hu⟩ := Option.isSome_iff_exists.mp hs
    rw [deleteTodo, hu, removeFirstById_eq_filter i db h1]
    rfl
  · intro t ht
    simpa using List.of_mem_filter ht

/-- C8 witness: deleting identifier 1 from a two-row table leaves the other
row. -/
theorem deleteTodo_spec_witness :
    deleteTodo 1 [⟨1, "a", false⟩, ⟨2, "b", true⟩] = some [⟨2, "b", true⟩] :=
  (deleteTodo_spec 1 [⟨1, "a", false⟩, ⟨2, "b", true⟩] (by decide) (by decide)).1

/-- C9: for a posted question that is non-empty once stripped, a false
relevancy gate yields the fixed redirection message, for any lookup function
(the answer lookup is not consulted), and a true gate yields the lookup
result on the stripped question. -/
theorem get_response_gate (question : String) (relevancy : String → Bool)
    (lookup : String → String) (h : pyStripStr question ≠ "") :
    (relevancy (pyStripStr question) = false →
        get_response relevancy lookup question = ⟨redirectMessage, 200⟩) ∧
    (relevancy (pyStripStr question) = true →
        get_response relevancy lookup question = ⟨lookup (pyStripStr question), 200⟩) := by
  have hq : (pyStripStr question == "") = false := by simpa using h
  constructor <;> intro hg <;> simp [get_response, hq, hg]

/-- C9 witness: a non-app question rejected by the gate gets the redirection
message, with a lookup that is visibly not used. -/
theorem get_response_gate_witness :
    get_response (fun _ => false) (fun _ => "unused")
      "what is the capital of France" = ⟨redirectMessage, 200⟩ :=
  (get_response_gate "what is the capital of France" (fun _ => false)
    (fun _ => "unused") (by decide)).1 rfl

/-- C10: every pair produced by load_qa_pairs has a non-empty question and a
non-empty answer: candidates whose stripped question or answer text is empty,
and question lines never followed by a truthy answer line before the next
question line, are dropped by the guarded append. -/
theorem load_qa_pairs_wf (content : String) :
    ∀ p ∈ load_qa_pairs content, p.question ≠ "" ∧ p.answer ≠ "" := by
  have h0 : ∀ p ∈ (ParseState.mk [] none none).pairs,
      p.question ≠ "" ∧ p.answer ≠ "" := by
    intro p hp
    simp at hp
  exact pushPair_wf _ _ _ (foldl_qaStep_wf _ ⟨[], none, none⟩ h0)

/-- C10 witness: a two-line file yields a pair, whose components the theorem
shows non-empty. -/
theorem load_qa_pairs_wf_witness :
    (QA.mk "a" "b").question ≠ "" ∧ (QA.mk "a" "b").answer ≠ "" :=
  load_qa_pairs_wf "Q: a\nA: b" ⟨"a", "b"⟩ (by decide)

end FlaskTodo
